import Mathlib

/-!
Verification of the Neo Together discovery / matching / group-formation core.

The frontend pages (Dashboard, Meetups, Browse, AvailabilityForm) are embedded
directly from the TypeScript source.  The backend engine (overlap evaluator,
interest ledger, matching engine, group engine, discovery ranking) is not part
of the checked-in sources, so those components are modelled from the
specification text, as indicated on each definition.
-/

/- ## Overlap Evaluator (spec section 4.1) -/

/-- Modelled from the spec: the slot data the Overlap Evaluator consumes — a
set of repeat weekdays and a clock-time window, times measured in minutes. -/
structure Slot where
  repeat_days : Finset (Fin 7)
  time_start : Nat
  time_end : Nat
deriving DecidableEq

/-- Modelled from the spec: one concrete overlapping window of the result. -/
structure OverlapWindow where
  days : Finset (Fin 7)
  start : Nat
  stop : Nat
deriving DecidableEq

/-- Modelled from the spec: the result record of `overlaps`. -/
structure OverlapResult where
  overlap : Bool
  windows : List OverlapWindow
deriving DecidableEq

/-- Modelled from the spec: `overlaps(slotA, slotB)` intersects the
`repeat_days` sets and the `[start, end)` clock-time intervals; a zero-length
intersection after clamping counts as no overlap. -/
def overlaps (a b : Slot) : OverlapResult :=
  let days := a.repeat_days ∩ b.repeat_days
  let s := max a.time_start b.time_start
  let e := min a.time_end b.time_end
  if days.Nonempty ∧ s < e then
    { overlap := true, windows := [{ days := days, start := s, stop := e }] }
  else
    { overlap := false, windows := [] }

/- ## AvailabilityForm (frontend component, C3) -/

/-- A picked location as held by the AvailabilityForm component. -/
structure PickedLocation where
  name : String
  address : String
  latitude : Int
  longitude : Int
deriving DecidableEq

/-- The payload the AvailabilityForm passes to its `onSubmit` callback. -/
structure SlotSubmission where
  location_name : String
  latitude : Int
  longitude : Int
  radius_meters : Option Nat
  time_start : String
  time_end : String
  repeat_days : List Nat
deriving DecidableEq

/-- Outcome of one form submission: either an error message is set
synchronously, or `onSubmit` is invoked with the submission payload. -/
inductive FormOutcome where
  | error (msg : String)
  | submit (data : SlotSubmission)
deriving DecidableEq

/-- The component state of AvailabilityForm that `handleSubmit` reads. -/
structure AvailabilityFormState where
  location : Option PickedLocation
  timeStart : String
  timeEnd : String
  repeatDays : List Nat
  radiusMeters : Option Nat
deriving DecidableEq

/-- JavaScript string comparison `a < b`: lexicographic on the character
sequence, which is how the HH:MM clock strings are compared in the form. -/
def jsStrLt (a b : String) : Bool :=
  decide (a.data < b.data)

/-- Shallow embedding of `AvailabilityForm.handleSubmit`: missing location,
empty `repeatDays`, or `timeStart >= timeEnd` (JavaScript lexicographic string
comparison on HH:MM strings) set an error and return without submitting;
otherwise `onSubmit` receives the payload, with `repeat_days` sorted
ascending and a zero radius collapsing to null as `radius || null` does. -/
def handleSubmit (st : AvailabilityFormState) : FormOutcome :=
  match st.location with
  | none => FormOutcome.error ("Please select a location")
  | some loc =>
    if st.repeatDays = [] then FormOutcome.error ("Please select at least one day")
    else if jsStrLt st.timeStart st.timeEnd then
      FormOutcome.submit
        { location_name := loc.name
          latitude := loc.latitude
          longitude := loc.longitude
          radius_meters := match st.radiusMeters with
            | some 0 => none
            | r => r
          time_start := st.timeStart
          time_end := st.timeEnd
          repeat_days := st.repeatDays.mergeSort (fun a b => a ≤ b) }
    else FormOutcome.error ("End time must be after start time")

/-- C9: overlap symmetry — for all slot pairs A and B, `overlaps(A,B)` equals
`overlaps(B,A)`: both the overlap flag and the computed windows agree
regardless of argument order. -/
theorem overlaps_symmetric (a b : Slot) : overlaps a b = overlaps b a := by
  simp only [overlaps]
  rw [Finset.inter_comm, Nat.max_comm, Nat.min_comm]

/-- C3: slot-creation validation — the AvailabilityForm invokes `onSubmit`
exactly when a location is selected, `repeatDays` is non-empty and
`timeStart` is strictly earlier than `timeEnd`; any violated condition
produces a synchronous error and no submission, and every submitted payload
satisfies `time_start < time_end` with a non-empty `repeat_days`. -/
theorem availabilityForm_validates (st : AvailabilityFormState) :
    ((∃ d, handleSubmit st = FormOutcome.submit d) ↔
      (st.location.isSome = true ∧ st.repeatDays ≠ [] ∧
        jsStrLt st.timeStart st.timeEnd = true)) ∧
    (∀ d, handleSubmit st = FormOutcome.submit d →
      jsStrLt d.time_start d.time_end = true ∧ d.repeat_days ≠ []) ∧
    (¬ (st.location.isSome = true ∧ st.repeatDays ≠ [] ∧
        jsStrLt st.timeStart st.timeEnd = true) →
      ∃ m, handleSubmit st = FormOutcome.error m) := by
  obtain ⟨lo, ts, te, rd, rm⟩ := st
  cases lo with
  | none => simp [handleSubmit]
  | some loc =>
    by_cases hdays : rd = []
    · subst hdays
      simp [handleSubmit]
    · by_cases htime : jsStrLt ts te = true
      · simp only [handleSubmit, if_neg hdays, if_pos htime, Option.isSome_some, ne_eq,
          hdays, not_false_eq_true, htime, and_self, and_true, true_and, iff_true,
          not_true_eq_false, false_implies]
        refine ⟨⟨_, rfl⟩, ?_⟩
        intro d hd
        have hd2 := (FormOutcome.submit.injEq _ _).mp hd
        subst hd2
        refine ⟨htime, ?_⟩
        intro habs
        have hlen := congrArg List.length habs
        simp at hlen
        exact hdays hlen
      · have htime2 : jsStrLt ts te = false := by
          cases h : jsStrLt ts te
          · rfl
          · exact absurd h htime
        simp [handleSubmit, hdays, htime2]

/-- A concrete state on which the validated submission path of
`availabilityForm_validates` is exercised. -/
def sampleFormState : AvailabilityFormState :=
  { location := some { name := "Central Park", address := "Central Park",
                       latitude := 40, longitude := -74 }
    timeStart := "09:00"
    timeEnd := "17:00"
    repeatDays := [2, 0]
    radiusMeters := none }

/-- Witness for C3: the validation theorem applied at a concrete form state. -/
theorem availabilityForm_validates_witness :
    ∃ d, handleSubmit sampleFormState = FormOutcome.submit d :=
  (availabilityForm_validates sampleFormState).1.mpr (by decide)

/- ## Dashboard map "Add this spot" flow (C4, C10) -/

/-- The spot picked by clicking the Dashboard map. -/
structure NewSpot where
  lat : Int
  lng : Int
  address : String
deriving DecidableEq

/-- The Dashboard component state read by `handleSaveSpot` and by the
save-button disabled condition. -/
structure DashboardSpotForm where
  newSpot : Option NewSpot
  newSpotDate : String
  newSpotTimeStart : String
  newSpotTimeEnd : String
  newSpotRepeat : Bool
  newSpotRepeatDays : List Nat
deriving DecidableEq

/-- The argument record of the create-availability mutation. -/
structure CreateAvailabilityArgs where
  location_name : String
  latitude : Int
  longitude : Int
  time_start : String
  time_end : String
  repeat_days : List Nat
deriving DecidableEq

/-- Shallow embedding of `Dashboard.handleSaveSpot`.  `getDay` stands for the
JavaScript `new Date(s).getDay()` (0 = Sunday .. 6 = Saturday).  Returns
`none` when there is no new spot (the guard returns early), otherwise the
argument record passed to `createAvailability.mutate`. -/
def handleSaveSpot (getDay : String → Nat) (st : DashboardSpotForm) :
    Option CreateAvailabilityArgs :=
  match st.newSpot with
  | none => none
  | some spot =>
    let repeatDays :=
      if st.newSpotRepeat = false ∧ st.newSpotDate ≠ "" then
        [(getDay st.newSpotDate + 6) % 7]
      else st.newSpotRepeatDays
    some
      { location_name := spot.address
        latitude := spot.lat
        longitude := spot.lng
        time_start := st.newSpotTimeStart
        time_end := st.newSpotTimeEnd
        repeat_days := repeatDays }

/-- Shallow embedding of the save-button enabled condition: the button is
disabled by `createAvailability.isPending || (!newSpotDate && !newSpotRepeat)`;
ignoring the transient isPending flag, it is enabled when a date is chosen or
weekly repeat is on. -/
def saveSpotEnabled (st : DashboardSpotForm) : Bool :=
  decide (st.newSpotDate ≠ "" ∨ st.newSpotRepeat = true)

/-- The display table of weekday names used by the Dashboard, indexed with
Monday at 0. -/
def DAY_NAMES : List String := ["Mon", "Tue", "Wed", "Thu", "Fri", "Sat", "Sun"]

/-- The weekday convention of the JavaScript `Date.getDay`, indexed with
Sunday at 0; used to state agreement of the conversion with `DAY_NAMES`. -/
def JS_DAY_NAMES : List String := ["Sun", "Mon", "Tue", "Wed", "Thu", "Fri", "Sat"]

/-- The form state exhibiting the C4 failure: weekly repeat is on, no repeat
day has been toggled, no date is chosen. -/
def emptyRepeatFormState : DashboardSpotForm :=
  { newSpot := some { lat := 40, lng := -74, address := "Central Park" }
    newSpotDate := ""
    newSpotTimeStart := "09:00"
    newSpotTimeEnd := "17:00"
    newSpotRepeat := true
    newSpotRepeatDays := [] }

/-- C4: with weekly repeat switched on and no day selected, the save action is
enabled yet `handleSaveSpot` submits an empty `repeat_days` list to the
create-availability call — the code violates the non-empty `repeat_days`
requirement the claim states. -/
theorem dashboard_saveSpot_empty_repeat_days :
    saveSpotEnabled emptyRepeatFormState = true ∧
    ∃ args, handleSaveSpot (fun _ => 0) emptyRepeatFormState = some args ∧
      args.repeat_days = [] := by
  exact ⟨rfl, ⟨_, rfl, rfl⟩⟩

/-- C10: for a non-repeating spot with a chosen date, `handleSaveSpot` submits
`repeat_days = [(getDay(date) + 6) % 7]`, a single value that is always in
0..6 and that names the same weekday in the Monday-first `DAY_NAMES` table as
the JavaScript Sunday-first convention does. -/
theorem oneTime_spot_weekday (getDay : String → Nat) (st : DashboardSpotForm)
    (hrep : st.newSpotRepeat = false) (hdate : st.newSpotDate ≠ "")
    (hspot : st.newSpot.isSome = true) (hday : getDay st.newSpotDate < 7) :
    ∃ args, handleSaveSpot getDay st = some args ∧
      args.repeat_days = [(getDay st.newSpotDate + 6) % 7] ∧
      (getDay st.newSpotDate + 6) % 7 < 7 ∧
      DAY_NAMES.get? ((getDay st.newSpotDate + 6) % 7) =
        JS_DAY_NAMES.get? (getDay st.newSpotDate) := by
  cases hsp : st.newSpot with
  | none => rw [hsp] at hspot; simp at hspot
  | some spot =>
    have heq : handleSaveSpot getDay st = some
        { location_name := spot.address
          latitude := spot.lat
          longitude := spot.lng
          time_start := st.newSpotTimeStart
          time_end := st.newSpotTimeEnd
          repeat_days := [(getDay st.newSpotDate + 6) % 7] } := by
      simp [handleSaveSpot, hsp, hrep, hdate]
    refine ⟨_, heq, rfl, Nat.mod_lt _ (by omega), ?_⟩
    set d := getDay st.newSpotDate with hd
    interval_cases d <;> rfl

/-- A concrete non-repeating form state with a chosen date. -/
def datedSpotFormState : DashboardSpotForm :=
  { newSpot := some { lat := 40, lng := -74, address := "Washington Square" }
    newSpotDate := "2025-06-01"
    newSpotTimeStart := "09:00"
    newSpotTimeEnd := "17:00"
    newSpotRepeat := false
    newSpotRepeatDays := [] }

/-- Witness for C10: the weekday-conversion theorem applied at a concrete
form state whose date falls on a Sunday (getDay = 0). -/
theorem oneTime_spot_weekday_witness :
    ∃ args, handleSaveSpot (fun _ => 0) datedSpotFormState = some args ∧
      args.repeat_days = [(0 + 6) % 7] ∧
      (0 + 6) % 7 < 7 ∧
      DAY_NAMES.get? ((0 + 6) % 7) = JS_DAY_NAMES.get? 0 :=
  oneTime_spot_weekday (fun _ => 0) datedSpotFormState rfl (by decide) rfl (by decide)

/- ## Matches UI (Meetups.tsx and Dashboard.tsx, C5 and C7) -/

/-- A match row as fetched by the frontend. -/
structure MatchRow where
  id : Nat
  user1_id : String
  user2_id : String
  availability_id : Nat
  status : String
  proposed_datetime : Option String
  proposed_by_id : Option String
  confirmed_at : Option String
  created_at : String
deriving DecidableEq

/-- JavaScript strict equality between two nullable string expressions, as in
`match.proposed_by_id === user?.id`: a null or undefined operand is never
strictly equal to the other side there (null === undefined is false). -/
def jsStrictEq (a b : Option String) : Bool :=
  match a, b with
  | some x, some y => x == y
  | _, _ => false

/-- The card variant rendered for one match. -/
inductive MatchCard where
  | confirmedCard
  | waitingForConfirmation
  | confirmOrCounter
  | proposeTime
  | hidden
deriving DecidableEq

/-- Shallow embedding of the per-match rendering in Meetups.tsx: the three
status filters put a match into the confirmed, waiting-for-confirmation, or
new-match section; inside the time_proposed section, `isMyProposal` decides
between the waiting text and the Confirm / Suggest-different-time buttons. -/
def meetupsMatchCard (viewer : Option String) (m : MatchRow) : MatchCard :=
  if m.status = "confirmed" then MatchCard.confirmedCard
  else if m.status = "time_proposed" then
    if jsStrictEq m.proposed_by_id viewer then MatchCard.waitingForConfirmation
    else MatchCard.confirmOrCounter
  else if m.status = "pending" then MatchCard.proposeTime
  else MatchCard.hidden

/-- Shallow embedding of the per-match rendering in Dashboard.tsx (which
guards on a non-null user): confirmed matches render the confirmed card;
`pendingMatches` covers both pending and time_proposed, with `isPending`
selecting the propose-time card and `isMyProposal` the waiting text. -/
def dashboardMatchCard (viewerId : String) (m : MatchRow) : MatchCard :=
  if m.status = "confirmed" then MatchCard.confirmedCard
  else if m.status = "pending" ∨ m.status = "time_proposed" then
    if m.status = "pending" then MatchCard.proposeTime
    else if jsStrictEq m.proposed_by_id (some viewerId) then
      MatchCard.waitingForConfirmation
    else MatchCard.confirmOrCounter
  else MatchCard.hidden

/-- Whether a card variant offers the confirm action. -/
def offersConfirm : MatchCard → Bool
  | MatchCard.confirmOrCounter => true
  | _ => false

/-- C5: confirmation gating — in both the Meetups and Dashboard match lists, a
match in status pending renders only the propose-time card (never a confirm
action), and a match in status time_proposed offers the confirm action exactly
when the viewer is not the proposer. -/
theorem confirm_gating (viewerId : String) (m : MatchRow) :
    (m.status = "pending" →
      meetupsMatchCard (some viewerId) m = MatchCard.proposeTime ∧
      dashboardMatchCard viewerId m = MatchCard.proposeTime) ∧
    (m.status = "time_proposed" →
      ((offersConfirm (meetupsMatchCard (some viewerId) m) = true ↔
          m.proposed_by_id ≠ some viewerId) ∧
       (offersConfirm (dashboardMatchCard viewerId m) = true ↔
          m.proposed_by_id ≠ some viewerId))) := by
  constructor
  · intro hp
    constructor
    · simp [meetupsMatchCard, hp]
    · simp [dashboardMatchCard, hp]
  · intro ht
    have hje : jsStrictEq m.proposed_by_id (some viewerId) = true ↔
        m.proposed_by_id = some viewerId := by
      cases m.proposed_by_id with
      | none => simp [jsStrictEq]
      | some p => simp [jsStrictEq]
    constructor
    · simp only [meetupsMatchCard, ht]
      by_cases hmine : m.proposed_by_id = some viewerId
      · simp [jsStrictEq, offersConfirm, hmine]
      · have : jsStrictEq m.proposed_by_id (some viewerId) = false := by
          cases h : jsStrictEq m.proposed_by_id (some viewerId)
          · rfl
          · exact absurd (hje.mp h) hmine
        simp [this, offersConfirm, hmine]
    · simp only [dashboardMatchCard, ht]
      by_cases hmine : m.proposed_by_id = some viewerId
      · simp [jsStrictEq, offersConfirm, hmine]
      · have : jsStrictEq m.proposed_by_id (some viewerId) = false := by
          cases h : jsStrictEq m.proposed_by_id (some viewerId)
          · rfl
          · exact absurd (hje.mp h) hmine
        simp [this, offersConfirm, hmine]

/-- A concrete time_proposed match proposed by the other user. -/
def proposedByOtherMatch : MatchRow :=
  { id := 7
    user1_id := "alex"
    user2_id := "jordan"
    availability_id := 3
    status := "time_proposed"
    proposed_datetime := some "2025-06-01T18:00"
    proposed_by_id := some "jordan"
    confirmed_at := none
    created_at := "2025-05-20" }

/-- Witness for C5: the gating theorem applied to a concrete viewer and a
time_proposed match proposed by the other participant, yielding the confirm
action. -/
theorem confirm_gating_witness :
    offersConfirm (meetupsMatchCard (some "alex") proposedByOtherMatch) = true :=
  ((confirm_gating "alex" proposedByOtherMatch).2 rfl).1.mpr (by decide)

/-- Shallow embedding of the pending filter in Meetups.tsx. -/
def meetupsPendingMatches (ms : List MatchRow) : List MatchRow :=
  ms.filter fun m => m.status == "pending"

/-- Shallow embedding of the time_proposed filter in Meetups.tsx. -/
def meetupsProposedMatches (ms : List MatchRow) : List MatchRow :=
  ms.filter fun m => m.status == "time_proposed"

/-- Shallow embedding of the confirmed filter in Meetups.tsx. -/
def meetupsConfirmedMatches (ms : List MatchRow) : List MatchRow :=
  ms.filter fun m => m.status == "confirmed"

/-- C7: match-status partition — each of the three Meetups.tsx lists contains
exactly the fetched matches of its status, the lists are pairwise disjoint,
and a match with any other status value appears in none of them. -/
theorem match_status_partition (ms : List MatchRow) (m : MatchRow) :
    (m ∈ meetupsPendingMatches ms ↔ m ∈ ms ∧ m.status = "pending") ∧
    (m ∈ meetupsProposedMatches ms ↔ m ∈ ms ∧ m.status = "time_proposed") ∧
    (m ∈ meetupsConfirmedMatches ms ↔ m ∈ ms ∧ m.status = "confirmed") ∧
    (m ∈ meetupsPendingMatches ms →
      m ∉ meetupsProposedMatches ms ∧ m ∉ meetupsConfirmedMatches ms) ∧
    (m ∈ meetupsProposedMatches ms → m ∉ meetupsConfirmedMatches ms) ∧
    (m.status ≠ "pending" ∧ m.status ≠ "time_proposed" ∧ m.status ≠ "confirmed" →
      m ∉ meetupsPendingMatches ms ∧ m ∉ meetupsProposedMatches ms ∧
        m ∉ meetupsConfirmedMatches ms) := by
  have hp : m ∈ meetupsPendingMatches ms ↔ m ∈ ms ∧ m.status = "pending" := by
    simp [meetupsPendingMatches, List.mem_filter]
  have hq : m ∈ meetupsProposedMatches ms ↔
      m ∈ ms ∧ m.status = "time_proposed" := by
    simp [meetupsProposedMatches, List.mem_filter]
  have hc : m ∈ meetupsConfirmedMatches ms ↔
      m ∈ ms ∧ m.status = "confirmed" := by
    simp [meetupsConfirmedMatches, List.mem_filter]
  refine ⟨hp, hq, hc, ?_, ?_, ?_⟩
  · intro hm
    have hs := (hp.mp hm).2
    constructor
    · intro hm2
      have := (hq.mp hm2).2
      rw [hs] at this
      exact absurd this (by decide)
    · intro hm2
      have := (hc.mp hm2).2
      rw [hs] at this
      exact absurd this (by decide)
  · intro hm hm2
    have hs := (hq.mp hm).2
    have := (hc.mp hm2).2
    rw [hs] at this
    exact absurd this (by decide)
  · rintro ⟨h1, h2, h3⟩
    exact ⟨fun hm => h1 (hp.mp hm).2, fun hm => h2 (hq.mp hm).2,
      fun hm => h3 (hc.mp hm).2⟩

/-- Witness for C7: the partition theorem applied to a concrete fetched list,
locating a time_proposed match in its bucket and excluding it from the others. -/
theorem match_status_partition_witness :
    proposedByOtherMatch ∈ meetupsProposedMatches [proposedByOtherMatch] ∧
    proposedByOtherMatch ∉ meetupsConfirmedMatches [proposedByOtherMatch] := by
  have h := match_status_partition [proposedByOtherMatch] proposedByOtherMatch
  have hmem := h.2.1.mpr ⟨by decide, rfl⟩
  exact ⟨hmem, h.2.2.2.2.1 hmem⟩

/- ## Sent-interest suppression (Browse.tsx and Dashboard.tsx, C6) -/

/-- One entry of the sent-interests list fetched from the interests/sent
endpoint. -/
structure SentInterest where
  target_id : String
  availability_id : Nat
deriving DecidableEq

/-- Shallow embedding of `hasExpressedInterest`: some entry of the
sent-interests list matches both the user id and the availability id. -/
def hasExpressedInterest (sentInterests : List SentInterest)
    (userId : String) (availabilityId : Nat) : Bool :=
  sentInterests.any fun i => i.target_id == userId && i.availability_id == availabilityId

/-- The action button rendered on a person card. -/
inductive InterestButton where
  | interestSent
  | express
deriving DecidableEq

/-- Shallow embedding of the action-button choice on a person card: the
disabled interest-sent button replaces the express-interest button exactly
when `hasExpressedInterest` holds for the card's user and slot. -/
def personCardButton (sentInterests : List SentInterest)
    (userId : String) (availabilityId : Nat) : InterestButton :=
  if hasExpressedInterest sentInterests userId availabilityId then
    InterestButton.interestSent
  else InterestButton.express

/-- C6: duplicate-expression suppression — `hasExpressedInterest` is true
exactly when the sent-interests list contains an entry for that user and
availability pair, and the person card shows the disabled interest-sent
button exactly in that case, the express button otherwise. -/
theorem hasExpressedInterest_gating (s : List SentInterest)
    (u : String) (a : Nat) :
    (hasExpressedInterest s u a = true ↔
      ∃ i ∈ s, i.target_id = u ∧ i.availability_id = a) ∧
    (personCardButton s u a = InterestButton.interestSent ↔
      ∃ i ∈ s, i.target_id = u ∧ i.availability_id = a) ∧
    (personCardButton s u a = InterestButton.express ↔
      ¬ ∃ i ∈ s, i.target_id = u ∧ i.availability_id = a) := by
  have h1 : hasExpressedInterest s u a = true ↔
      ∃ i ∈ s, i.target_id = u ∧ i.availability_id = a := by
    simp [hasExpressedInterest, List.any_eq_true]
  refine ⟨h1, ?_, ?_⟩
  · rw [← h1]
    unfold personCardButton
    cases h : hasExpressedInterest s u a <;> simp [h]
  · rw [← h1]
    unfold personCardButton
    cases h : hasExpressedInterest s u a <;> simp [h]

/-- Witness for C6: the suppression theorem applied to a concrete
sent-interests list. -/
theorem hasExpressedInterest_gating_witness :
    personCardButton [{ target_id := "jordan", availability_id := 5 }] "jordan" 5 =
      InterestButton.interestSent :=
  (hasExpressedInterest_gating [{ target_id := "jordan", availability_id := 5 }]
      "jordan" 5).2.1.mpr (by decide)

/- ## Interest Expression Ledger and Matching Engine (spec section 4.2, C2) -/

/-- Modelled from the spec: a slot record as the reciprocity rule consumes it —
its id, its owner, and whether it is currently visible (owner available and
slot active). -/
structure SlotRec where
  id : Nat
  owner : Nat
  visible : Bool
deriving DecidableEq

/-- Modelled from the spec: an InterestExpression (actor_id, target_id,
slot_id) triple, where slot_id references a slot of the target. -/
structure InterestExpression where
  actor_id : Nat
  target_id : Nat
  slot_id : Nat
deriving DecidableEq

/-- Modelled from the spec: a Match record for an unordered user pair,
anchored to the slot context where the later expression was made. -/
structure MatchRec where
  user_a : Nat
  user_b : Nat
  slot_id : Nat
deriving DecidableEq

/-- Modelled from the spec: the persistent state the ledger and matching
engine read and write. -/
structure LedgerState where
  slots : List SlotRec
  expressions : List InterestExpression
  matchList : List MatchRec
deriving DecidableEq

/-- Modelled from the spec: error kinds of `expressInterest`.  The duplicate
case is handled as the spec's sanctioned idempotent no-op, so only
InvalidTarget remains an error. -/
inductive ExpressError where
  | invalidTarget
deriving DecidableEq

/-- Whether user `u` currently holds slot `slotId` as an active, visible
slot. -/
def ownsVisibleSlot (s : LedgerState) (u slotId : Nat) : Bool :=
  s.slots.any fun sl => sl.id == slotId && sl.owner == u && sl.visible

/-- Modelled from the spec: the reciprocity rule — the target currently holds
the referenced slot, and a prior expression with actor and target swapped
references a slot the actor currently holds. -/
def reciprocityFound (s : LedgerState) (actor target slotId : Nat) : Bool :=
  ownsVisibleSlot s target slotId &&
  s.expressions.any fun e =>
    e.actor_id == target && e.target_id == actor && ownsVisibleSlot s actor e.slot_id

/-- Whether a live Match already exists for the unordered pair at the given
slot context. -/
def matchExistsAt (s : LedgerState) (a b slotId : Nat) : Bool :=
  s.matchList.any fun m =>
    m.slot_id == slotId &&
    ((m.user_a == a && m.user_b == b) || (m.user_a == b && m.user_b == a))

/-- Whether the exact (actor, target, slot) triple is already recorded. -/
def hasExpression (s : LedgerState) (actor target slotId : Nat) : Bool :=
  s.expressions.any fun e =>
    e.actor_id == actor && e.target_id == target && e.slot_id == slotId

/-- Modelled from the spec: `expressInterest(actorId, targetId, slotId)` —
fails with InvalidTarget when actor equals target; an existing triple is an
idempotent no-op that creates no record, re-triggers no matching, and reports
the mutual-match outcome again; otherwise the expression is recorded, and on
reciprocity the matching engine creates the Match for the pair at this slot
context unless one already exists (DuplicateMatch is an idempotent skip).
Returns the updated state and whether a mutual match resulted. -/
def expressInterest (s : LedgerState) (actor target slotId : Nat) :
    LedgerState × Except ExpressError Bool :=
  if actor == target then (s, Except.error ExpressError.invalidTarget)
  else if hasExpression s actor target slotId then
    (s, Except.ok (reciprocityFound s actor target slotId))
  else
    let mutualMatch := reciprocityFound s actor target slotId
    let s1 : LedgerState :=
      { s with expressions := s.expressions ++ [⟨actor, target, slotId⟩] }
    let s2 : LedgerState :=
      if mutualMatch && !matchExistsAt s1 actor target slotId then
        { s1 with matchList := s1.matchList ++ [⟨actor, target, slotId⟩] }
      else s1
    (s2, Except.ok mutualMatch)

/-- Characterization of a fresh call to `expressInterest`: with a valid target
and a triple not yet recorded, the call reports the reciprocity outcome,
leaves the slots unchanged, and appends exactly the new expression. -/
theorem expressInterest_fresh (s : LedgerState) (actor target slotId : Nat)
    (hne : actor ≠ target) (hnew : hasExpression s actor target slotId = false) :
    (expressInterest s actor target slotId).2 =
        Except.ok (reciprocityFound s actor target slotId) ∧
    (expressInterest s actor target slotId).1.slots = s.slots ∧
    (expressInterest s actor target slotId).1.expressions =
        s.expressions ++ [⟨actor, target, slotId⟩] := by
  have hbeq : (actor == target) = false := beq_eq_false_iff_ne.mpr hne
  unfold expressInterest
  rw [hbeq, hnew]
  simp only [Bool.false_eq_true, if_false]
  split <;> refine ⟨?_, ?_, ?_⟩ <;> simp

/-- C2: idempotence of expressInterest — after a first successful call for a
fresh (actor, target, slot) triple, an identical second call changes nothing
(so matching is not re-triggered), returns the same mutual-match outcome, and
the ledger holds exactly one record for the triple. -/
theorem expressInterest_idempotent (s : LedgerState) (actor target slotId : Nat)
    (hne : actor ≠ target) (hnew : hasExpression s actor target slotId = false) :
    (expressInterest (expressInterest s actor target slotId).1 actor target slotId).1 =
      (expressInterest s actor target slotId).1 ∧
    (expressInterest (expressInterest s actor target slotId).1 actor target slotId).2 =
      (expressInterest s actor target slotId).2 ∧
    ((expressInterest s actor target slotId).1.expressions.filter
        (fun e => decide (e = ⟨actor, target, slotId⟩))).length = 1 ∧
    (∃ b, (expressInterest s actor target slotId).2 = Except.ok b) := by
  obtain ⟨hret, hslots, hexprs⟩ := expressInterest_fresh s actor target slotId hne hnew
  have hbeq : (actor == target) = false := beq_eq_false_iff_ne.mpr hne
  have hdup : hasExpression (expressInterest s actor target slotId).1
      actor target slotId = true := by
    unfold hasExpression
    rw [hexprs, List.any_append]
    simp
  have howns : ∀ u sl, ownsVisibleSlot (expressInterest s actor target slotId).1 u sl =
      ownsVisibleSlot s u sl := by
    intro u sl
    unfold ownsVisibleSlot
    rw [hslots]
  have hrec : reciprocityFound (expressInterest s actor target slotId).1
      actor target slotId = reciprocityFound s actor target slotId := by
    unfold reciprocityFound
    simp only [howns, hexprs, List.any_append, List.any_cons, List.any_nil, hbeq,
      Bool.false_and, Bool.and_false, Bool.or_false]
  have hsecond : ∀ t : LedgerState, hasExpression t actor target slotId = true →
      expressInterest t actor target slotId =
        (t, Except.ok (reciprocityFound t actor target slotId)) := by
    intro t ht
    unfold expressInterest
    rw [hbeq, ht]
    simp
  have h2 := hsecond _ hdup
  refine ⟨?_, ?_, ?_, ⟨_, hret⟩⟩
  · rw [h2]
  · rw [h2, hret]
    simp only [hrec]
  · rw [hexprs, List.filter_append]
    have hfilter : s.expressions.filter
        (fun e => decide (e = ⟨actor, target, slotId⟩)) = [] := by
      rw [List.filter_eq_nil_iff]
      intro e he hbe
      have heE : e = ⟨actor, target, slotId⟩ := of_decide_eq_true hbe
      subst heE
      unfold hasExpression at hnew
      have hpe := (List.any_eq_false.mp hnew) _ he
      simp at hpe
    rw [hfilter]
    simp

/-- The concrete ledger state used as the C2 witness: user 1 holds visible
slot 10, user 2 holds visible slot 20, and user 2 has already expressed
interest toward user 1 at slot 10, so the fresh (1, 2, 20) expression is
reciprocal. -/
def reciprocalLedger : LedgerState :=
  { slots := [{ id := 10, owner := 1, visible := true },
              { id := 20, owner := 2, visible := true }]
    expressions := [{ actor_id := 2, target_id := 1, slot_id := 10 }]
    matchList := [] }

/-- Witness for C2: the idempotence theorem applied at the concrete
reciprocal ledger state. -/
theorem expressInterest_idempotent_witness :
    (expressInterest (expressInterest reciprocalLedger 1 2 20).1 1 2 20).1 =
      (expressInterest reciprocalLedger 1 2 20).1 ∧
    (expressInterest (expressInterest reciprocalLedger 1 2 20).1 1 2 20).2 =
      (expressInterest reciprocalLedger 1 2 20).2 ∧
    ((expressInterest reciprocalLedger 1 2 20).1.expressions.filter
        (fun e => decide (e = ⟨1, 2, 20⟩))).length = 1 ∧
    (∃ b, (expressInterest reciprocalLedger 1 2 20).2 = Except.ok b) :=
  expressInterest_idempotent reciprocalLedger 1 2 20 (by decide) (by decide)

/- ## Group Engine (spec section 4.4, C1) -/

/-- Modelled from the spec: the per-user group-size comfort preferences the
engine reads from the account collaborator. -/
structure UserPrefs where
  id : Nat
  min_group_size : Nat
  max_group_size : Nat
deriving DecidableEq

/-- Modelled from the spec: the role of a group member. -/
inductive GroupRole where
  | founder
  | member
deriving DecidableEq

/-- Modelled from the spec: the status of a group membership. -/
inductive GroupMemberStatus where
  | confirmed
  | pending
deriving DecidableEq

/-- Modelled from the spec: a GroupMember entry. -/
structure GroupMember where
  user_id : Nat
  role : GroupRole
  status : GroupMemberStatus
deriving DecidableEq

/-- Modelled from the spec: a Group anchored to one slot context with its
ordered member collection. -/
structure MeetGroup where
  slot_id : Nat
  members : List GroupMember
deriving DecidableEq

/-- Modelled from the spec: the status of a GroupJoinRequest. -/
inductive RequestStatus where
  | pending
  | accepted
  | declined
deriving DecidableEq

/-- Modelled from the spec: a GroupJoinRequest. -/
structure GroupJoinRequest where
  id : Nat
  group_slot : Nat
  requester_id : Nat
  status : RequestStatus
deriving DecidableEq

/-- Modelled from the spec: the persistent state of the group engine,
together with the user preferences it consults. -/
structure GroupEngineState where
  users : List UserPrefs
  groups : List MeetGroup
  requests : List GroupJoinRequest
  nextRequestId : Nat
deriving DecidableEq

/-- The confirmed members of a group. -/
def confirmedMembers (g : MeetGroup) : List GroupMember :=
  g.members.filter fun m => m.status == GroupMemberStatus.confirmed

/-- Group size: the count of confirmed members. -/
def confirmedMemberCount (g : MeetGroup) : Nat :=
  (confirmedMembers g).length

/-- Whether user `u` is a confirmed member of `g`. -/
def isConfirmedMember (g : MeetGroup) (u : Nat) : Bool :=
  (confirmedMembers g).any fun m => m.user_id == u

/-- The max_group_size preference of a user, defaulting to 10 as the spec
prescribes when unset. -/
def maxGroupSizeOf (s : GroupEngineState) (u : Nat) : Nat :=
  match s.users.find? (fun p => p.id == u) with
  | some p => p.max_group_size
  | none => 10

/-- The min_group_size preference of a user, defaulting to 2 as the spec
prescribes when unset. -/
def minGroupSizeOf (s : GroupEngineState) (u : Nat) : Nat :=
  match s.users.find? (fun p => p.id == u) with
  | some p => p.min_group_size
  | none => 2

/-- The group anchored at a slot context, if any. -/
def findGroup (s : GroupEngineState) (slotId : Nat) : Option MeetGroup :=
  s.groups.find? fun g => g.slot_id == slotId

/-- Adds `u` as a directly confirmed member unless already confirmed. -/
def addConfirmed (g : MeetGroup) (u : Nat) : MeetGroup :=
  if isConfirmedMember g u then g
  else { g with members := g.members ++ [⟨u, GroupRole.member, GroupMemberStatus.confirmed⟩] }

/-- Modelled from the spec: `formOrJoin(slotContext, [userA, userB])` — with
no group at the context, creates one with both users confirmed and the first
as founder; with an existing group, adds the new party as a confirmed member
directly, with no size check. -/
def formOrJoin (s : GroupEngineState) (slotId a b : Nat) : GroupEngineState :=
  match findGroup s slotId with
  | none =>
    { s with groups := s.groups ++
        [{ slot_id := slotId,
           members := [⟨a, GroupRole.founder, GroupMemberStatus.confirmed⟩,
                       ⟨b, GroupRole.member, GroupMemberStatus.confirmed⟩] }] }
  | some g =>
    let g2 := addConfirmed (addConfirmed g a) b
    { s with groups := s.groups.map fun h => if h.slot_id == slotId then g2 else h }

/-- Modelled from the spec: error kinds of `requestJoin`. -/
inductive JoinError where
  | notFound
  | alreadyMember
  | duplicatePendingRequest
  | groupFull
deriving DecidableEq

/-- Modelled from the spec: the successful outcome of `requestJoin`, carrying
the informational tentative flag. -/
structure JoinOutcome where
  requestId : Nat
  tentative : Bool
deriving DecidableEq

/-- Whether a pending request by `requester` exists on the group at
`slotId`. -/
def hasPendingRequest (s : GroupEngineState) (slotId requester : Nat) : Bool :=
  s.requests.any fun r =>
    r.group_slot == slotId && r.requester_id == requester &&
      r.status == RequestStatus.pending

/-- Modelled from the spec: `requestJoin(groupId, requesterId)` — rejects an
existing confirmed member, a duplicate pending request, and, when the current
confirmed-member count is at or above any confirmed member's max_group_size,
rejects with GroupFull; otherwise records a pending request, flagged
tentative when the resulting size would still sit below some confirmed
member's min_group_size. -/
def requestJoin (s : GroupEngineState) (slotId requester : Nat) :
    GroupEngineState × Except JoinError JoinOutcome :=
  match findGroup s slotId with
  | none => (s, Except.error JoinError.notFound)
  | some g =>
    if isConfirmedMember g requester then (s, Except.error JoinError.alreadyMember)
    else if hasPendingRequest s slotId requester then
      (s, Except.error JoinError.duplicatePendingRequest)
    else if (confirmedMembers g).any
        (fun m => maxGroupSizeOf s m.user_id ≤ confirmedMemberCount g) then
      (s, Except.error JoinError.groupFull)
    else
      ({ s with
          requests := s.requests ++
            [{ id := s.nextRequestId, group_slot := slotId,
               requester_id := requester, status := RequestStatus.pending }],
          nextRequestId := s.nextRequestId + 1 },
        Except.ok
          { requestId := s.nextRequestId,
            tentative := (confirmedMembers g).any
              (fun m => confirmedMemberCount g + 1 < minGroupSizeOf s m.user_id) })

/-- Modelled from the spec: error kinds of `respondToJoinRequest`. -/
inductive RespondError where
  | notFound
  | notAMember
  | alreadyResolved
deriving DecidableEq

/-- Modelled from the spec: `respondToJoinRequest(requestId, responderId,
accept)` — only a confirmed member of the request's group may respond, only a
pending request can be resolved; accepting adds the requester as a confirmed
member (kept unique per the membership invariant), declining changes no
membership. -/
def respondToJoinRequest (s : GroupEngineState) (requestId responder : Nat)
    (accept : Bool) : GroupEngineState × Except RespondError Unit :=
  match s.requests.find? (fun r => r.id == requestId) with
  | none => (s, Except.error RespondError.notFound)
  | some r =>
    match findGroup s r.group_slot with
    | none => (s, Except.error RespondError.notFound)
    | some g =>
      if isConfirmedMember g responder = false then
        (s, Except.error RespondError.notAMember)
      else if r.status ≠ RequestStatus.pending then
        (s, Except.error RespondError.alreadyResolved)
      else if accept then
        ({ s with
            requests := s.requests.map fun q =>
              if q.id == requestId then { q with status := RequestStatus.accepted } else q,
            groups := s.groups.map fun h =>
              if h.slot_id == r.group_slot then addConfirmed h r.requester_id else h },
          Except.ok ())
      else
        ({ s with requests := s.requests.map fun q =>
            if q.id == requestId then { q with status := RequestStatus.declined } else q },
          Except.ok ())

/-- Reachable states of the group engine: an initial state with no groups or
requests, grown by the formOrJoin side effect of the matching engine (always
called with the two distinct parties of a mutual match) and by the join
request operations. -/
inductive Reachable : GroupEngineState → Prop where
  | init (users : List UserPrefs) : Reachable ⟨users, [], [], 0⟩
  | formOrJoinStep {s : GroupEngineState} (slotId a b : Nat) (hab : a ≠ b) :
      Reachable s → Reachable (formOrJoin s slotId a b)
  | requestJoinStep {s : GroupEngineState} (slotId requester : Nat) :
      Reachable s → Reachable (requestJoin s slotId requester).1
  | respondStep {s : GroupEngineState} (requestId responder : Nat) (accept : Bool) :
      Reachable s → Reachable (respondToJoinRequest s requestId responder accept).1

/-- The group-size invariant the claim asserts: every group's confirmed-member
count is at most every confirmed member's max_group_size (equivalently, at
most the minimum over them). -/
def groupSizeInvariant (s : GroupEngineState) : Bool :=
  s.groups.all fun g =>
    (confirmedMembers g).all fun m =>
      confirmedMemberCount g ≤ maxGroupSizeOf s m.user_id

/-- User preferences for the C1 states: user 1 caps groups at 2, users 2 and 3
accept up to 10. -/
def cappedUsers : List UserPrefs :=
  [{ id := 1, min_group_size := 2, max_group_size := 2 },
   { id := 2, min_group_size := 2, max_group_size := 10 },
   { id := 3, min_group_size := 2, max_group_size := 10 }]

/-- A reachable state in which a second mutual match at the same slot has
grown the founding group past user 1's max_group_size. -/
def overfullState : GroupEngineState :=
  formOrJoin (formOrJoin ⟨cappedUsers, [], [], 0⟩ 50 1 2) 50 1 3

/-- Counterexample for C1: the group-size invariant does not hold in every
reachable state — after a mutual match founds a group of user 1 (max size 2)
and user 2, a later mutual match of user 1 with user 3 at the same slot adds
user 3 as a confirmed member directly, leaving 3 confirmed members against a
minimum max_group_size of 2. -/
theorem group_size_invariant_violated :
    Reachable overfullState ∧ groupSizeInvariant overfullState = false :=
  ⟨Reachable.formOrJoinStep 50 1 3 (by decide)
      (Reachable.formOrJoinStep 50 1 2 (by decide) (Reachable.init cappedUsers)),
    by decide⟩

/-- addConfirmed preserves the slot anchor of the group. -/
theorem addConfirmed_slot (g : MeetGroup) (u : Nat) :
    (addConfirmed g u).slot_id = g.slot_id := by
  unfold addConfirmed
  split <;> rfl

/-- addConfirmed leaves its user a confirmed member. -/
theorem isConfirmedMember_addConfirmed (g : MeetGroup) (u : Nat) :
    isConfirmedMember (addConfirmed g u) u = true := by
  unfold addConfirmed
  split
  · assumption
  · unfold isConfirmedMember confirmedMembers
    simp [List.filter_append, List.any_append]

/-- C1 (amended): the size cap is enforced by the request-based join path
only — `requestJoin` rejects with GroupFull exactly when the confirmed-member
count is at or above some confirmed member's max_group_size, and never itself
changes group membership, while `formOrJoin` adds a later mutual-matcher as a
confirmed member directly without that check. -/
theorem requestJoin_enforces_cap (s : GroupEngineState) (slotId requester : Nat)
    (g : MeetGroup) (hg : findGroup s slotId = some g)
    (hmem : isConfirmedMember g requester = false)
    (hdup : hasPendingRequest s slotId requester = false) :
    ((requestJoin s slotId requester).2 = Except.error JoinError.groupFull ↔
       ∃ m ∈ confirmedMembers g, maxGroupSizeOf s m.user_id ≤ confirmedMemberCount g)
  ∧ (∀ s2 slot2 req2, (requestJoin s2 slot2 req2).1.groups = s2.groups)
  ∧ (∀ s2 slot2 a c g2, findGroup s2 slot2 = some g2 →
       ∃ g3 ∈ (formOrJoin s2 slot2 a c).groups,
         g3.slot_id = g2.slot_id ∧ isConfirmedMember g3 c = true) := by
  refine ⟨?_, ?_, ?_⟩
  · simp only [requestJoin, hg, hmem, hdup, Bool.false_eq_true, if_false]
    cases hany : (confirmedMembers g).any
        (fun m => maxGroupSizeOf s m.user_id ≤ confirmedMemberCount g) with
    | true =>
      simp only [if_true]
      constructor
      · intro _
        obtain ⟨m, hm, hp⟩ := List.any_eq_true.mp hany
        exact ⟨m, hm, of_decide_eq_true hp⟩
      · intro _
        trivial
    | false =>
      simp only [Bool.false_eq_true, if_false]
      constructor
      · intro h
        exact absurd h (by simp)
      · rintro ⟨m, hm, hp⟩
        have := List.any_eq_false.mp hany m hm
        rw [decide_eq_true_eq] at this
        exact absurd hp this
  · intro s2 slot2 req2
    unfold requestJoin
    cases hfind : findGroup s2 slot2 with
    | none => rfl
    | some g2 =>
      by_cases h1 : isConfirmedMember g2 req2 = true
      · simp only [h1, if_true]
      · simp only [h1, Bool.false_eq_true, if_false]
        by_cases h2 : hasPendingRequest s2 slot2 req2 = true
        · simp only [h2, if_true]
        · simp only [eq_false_of_ne_true h2, Bool.false_eq_true, if_false]
          cases (confirmedMembers g2).any
              (fun m => maxGroupSizeOf s2 m.user_id ≤ confirmedMemberCount g2) <;> rfl
  · intro s2 slot2 a c g2 hfind
    simp only [formOrJoin, hfind]
    have hfind2 : s2.groups.find? (fun h => h.slot_id == slot2) = some g2 := hfind
    have hg2mem : g2 ∈ s2.groups := List.mem_of_find?_eq_some hfind2
    have hslot : (g2.slot_id == slot2) = true := by
      simpa using List.find?_some hfind2
    refine ⟨addConfirmed (addConfirmed g2 a) c, ?_, ?_, ?_⟩
    · have himg := List.mem_map_of_mem
        (fun h => if h.slot_id == slot2 then addConfirmed (addConfirmed g2 a) c else h)
        hg2mem
      simpa [hslot] using himg
    · rw [addConfirmed_slot, addConfirmed_slot]
    · exact isConfirmedMember_addConfirmed _ _

/-- The reachable two-member founding group state used by the C1 witness. -/
def cappedPairState : GroupEngineState :=
  formOrJoin ⟨cappedUsers, [], [], 0⟩ 50 1 2

/-- The founding group of `cappedPairState`. -/
def cappedPairGroup : MeetGroup :=
  { slot_id := 50,
    members := [⟨1, GroupRole.founder, GroupMemberStatus.confirmed⟩,
                ⟨2, GroupRole.member, GroupMemberStatus.confirmed⟩] }

/-- Witness for C1 (amended): requestJoin on the capped two-member group
rejects user 3 with GroupFull. -/
theorem requestJoin_enforces_cap_witness :
    (requestJoin cappedPairState 50 3).2 = Except.error JoinError.groupFull :=
  (requestJoin_enforces_cap cappedPairState 50 3 cappedPairGroup
      (by decide) (by decide) (by decide)).1.mpr (by decide)

/- ## Ranking/Discovery View (spec section 4.5, C8) -/

/-- Modelled from the spec: the discovery preferences of a user — nullable
age bounds (null = unbounded) and a gender preference set (empty = any). -/
structure DiscoveryPrefs where
  min_age_pref : Option Nat
  max_age_pref : Option Nat
  gender_prefs : List String
deriving DecidableEq

/-- Modelled from the spec: the user attributes the discovery view reads. -/
structure DiscoveryUser where
  age : Nat
  gender : String
  interests : List String
  prefs : DiscoveryPrefs
deriving DecidableEq

/-- Modelled from the spec: one person gathered at the target location — the
person, their slot there, and the slot creation order index. -/
structure Candidate where
  person : DiscoveryUser
  slot : Slot
  createdIdx : Nat
deriving DecidableEq

/-- Whether an age lies within nullable bounds, null treated as unbounded. -/
def ageWithin (lo hi : Option Nat) (age : Nat) : Bool :=
  (match lo with
    | none => true
    | some l => decide (l ≤ age)) &&
  (match hi with
    | none => true
    | some h => decide (age ≤ h))

/-- Whether a gender preference set accepts a gender (empty set = any). -/
def genderAccepted (prefs : List String) (g : String) : Bool :=
  prefs.isEmpty || prefs.contains g

/-- Whether one side's preferences are satisfied by the other person. -/
def prefsSatisfied (p : DiscoveryPrefs) (other : DiscoveryUser) : Bool :=
  ageWithin p.min_age_pref p.max_age_pref other.age &&
  genderAccepted p.gender_prefs other.gender

/-- Modelled from the spec: the preference tier — 0 when both directions are
satisfied (full match), 1 when exactly one is (partial), 2 otherwise. -/
def matchTier (viewer other : DiscoveryUser) : Nat :=
  if prefsSatisfied viewer.prefs other && prefsSatisfied other.prefs viewer then 0
  else if prefsSatisfied viewer.prefs other || prefsSatisfied other.prefs viewer then 1
  else 2

/-- The count of interests shared with the viewer. -/
def sharedInterestCount (viewer other : DiscoveryUser) : Nat :=
  (other.interests.filter fun i => viewer.interests.contains i).length

/-- The overlap tie-break rank: 0 when the candidate's slot overlaps the
viewer's slot at the location (via the Overlap Evaluator), 1 otherwise (also
when the viewer holds no slot there). -/
def candidateOverlapRank (viewerSlot : Option Slot) (c : Candidate) : Nat :=
  match viewerSlot with
  | some vs => if (overlaps vs c.slot).overlap then 0 else 1
  | none => 1

/-- Modelled from the spec: the discovery ordering — descending preference
tiers, then overlap present first, then shared-interest count descending,
then stably by slot creation order. -/
def discoveryLE (viewer : DiscoveryUser) (viewerSlot : Option Slot)
    (a b : Candidate) : Bool :=
  if matchTier viewer a.person ≠ matchTier viewer b.person then
    decide (matchTier viewer a.person < matchTier viewer b.person)
  else if candidateOverlapRank viewerSlot a ≠ candidateOverlapRank viewerSlot b then
    decide (candidateOverlapRank viewerSlot a < candidateOverlapRank viewerSlot b)
  else if sharedInterestCount viewer a.person ≠ sharedInterestCount viewer b.person then
    decide (sharedInterestCount viewer b.person < sharedInterestCount viewer a.person)
  else decide (a.createdIdx ≤ b.createdIdx)

/-- Modelled from the spec: `peopleAtLocation` returns the gathered people in
the discovery order, using a stable merge sort. -/
def peopleAtLocation (viewer : DiscoveryUser) (viewerSlot : Option Slot)
    (cands : List Candidate) : List Candidate :=
  cands.mergeSort (discoveryLE viewer viewerSlot)

/-- The discovery comparator is total. -/
theorem discoveryLE_total (viewer : DiscoveryUser) (vs : Option Slot)
    (a b : Candidate) :
    (discoveryLE viewer vs a b || discoveryLE viewer vs b a) = true := by
  unfold discoveryLE
  split_ifs <;> simp_all
  omega

/-- The discovery comparator is transitive. -/
theorem discoveryLE_trans (viewer : DiscoveryUser) (vs : Option Slot)
    (a b c : Candidate) :
    discoveryLE viewer vs a b = true → discoveryLE viewer vs b c = true →
    discoveryLE viewer vs a c = true := by
  intro hab hbc
  unfold discoveryLE at hab hbc ⊢
  split_ifs at hab hbc ⊢ <;> simp_all <;> omega

/-- The unset preference record: null bounds, empty gender set. -/
def unsetPrefs : DiscoveryPrefs :=
  { min_age_pref := none, max_age_pref := none, gender_prefs := [] }

/-- A slot placeholder for the Scenario E candidates. -/
def scenarioSlot : Slot :=
  { repeat_days := ∅, time_start := 0, time_end := 0 }

/-- The Scenario E viewer: age preference [25, 35], gender preference
{female}. -/
def scenarioViewer : DiscoveryUser :=
  { age := 30, gender := "male", interests := [],
    prefs := { min_age_pref := some 25, max_age_pref := some 35,
               gender_prefs := ["female"] } }

/-- Scenario E, first person: female aged 28 — full preference match. -/
def scenarioFull : Candidate :=
  { person := { age := 28, gender := "female", interests := [], prefs := unsetPrefs },
    slot := scenarioSlot, createdIdx := 0 }

/-- Scenario E, second person: male aged 30 — the viewer's age bound is met
but the gender preference is not, so exactly one direction is satisfied. -/
def scenarioAgeOnly : Candidate :=
  { person := { age := 30, gender := "male", interests := [], prefs := unsetPrefs },
    slot := scenarioSlot, createdIdx := 1 }

/-- Scenario E, third person: female aged 40 whose own gender preference
excludes the viewer — no direction is satisfied. -/
def scenarioNoMatch : Candidate :=
  { person := { age := 40, gender := "female", interests := [],
                prefs := { min_age_pref := none, max_age_pref := none,
                           gender_prefs := ["female"] } },
    slot := scenarioSlot, createdIdx := 2 }

/-- C8: discovery ordering — `peopleAtLocation` returns a permutation of the
gathered people sorted by the tier-then-overlap-then-shared-interests-then-
creation-order comparator, and on the Scenario E data the full match is
listed first, the partial match second, and the no-match last. -/
theorem discovery_ordering (viewer : DiscoveryUser) (vs : Option Slot)
    (cands : List Candidate) :
    (peopleAtLocation viewer vs cands).Perm cands ∧
    (peopleAtLocation viewer vs cands).Pairwise
      (fun a b => discoveryLE viewer vs a b = true) ∧
    peopleAtLocation scenarioViewer none
        [scenarioFull, scenarioAgeOnly, scenarioNoMatch] =
      [scenarioFull, scenarioAgeOnly, scenarioNoMatch] ∧
    matchTier scenarioViewer scenarioFull.person = 0 ∧
    matchTier scenarioViewer scenarioAgeOnly.person = 1 ∧
    matchTier scenarioViewer scenarioNoMatch.person = 2 := by
  refine ⟨List.mergeSort_perm cands _, ?_, ?_, by decide, by decide, by decide⟩
  · exact List.sorted_mergeSort
      (fun a b c => discoveryLE_trans viewer vs a b c)
      (fun a b => discoveryLE_total viewer vs a b) cands
  · exact List.mergeSort_of_sorted (by decide)

/-- Witness for C8: the ordering theorem applied at the Scenario E data. -/
theorem discovery_ordering_witness :
    peopleAtLocation scenarioViewer none
        [scenarioFull, scenarioAgeOnly, scenarioNoMatch] =
      [scenarioFull, scenarioAgeOnly, scenarioNoMatch] :=
  (discovery_ordering scenarioViewer none []).2.2.1
